import Mathlib

/-!
# Verification of the nai-integrations token-lifecycle core

Shallow embedding of `src/nai_integrations` (base models/services, provider
views and the batch refresh task) together with proofs settling the frozen
claims about the natural-language specification.

Conventions of the embedding:
* timestamps are integers counting seconds (`timezone.now()` becomes an
  explicit `now : Int` argument);
* Python exceptions become an inductive `PyExc` mirroring the class
  hierarchy relevant to `retry_api_call`'s `except` clauses;
* fallible library operations (the `cryptography` Fernet cipher, outbound
  HTTP) are modelled as explicit `Except` results / outcome functions, and
  the repository code that wraps them is translated faithfully;
* Django ORM rows become a `CloudAuth` structure; `update_or_create`
  keyed on the user becomes explicit option-state passing.
-/

namespace NaiIntegrations

/-! ## Exceptions and the retry loop (`base/services.py`, `retry_api_call`)

The default `retry_on` tuple in the source is
`(requests.RequestException, ConnectionError, TimeoutError)`.
In the `requests` library, `requests.exceptions.HTTPError` — the exception
raised by `Response.raise_for_status` for an HTTP 4xx/5xx response, carrying
that response — is a subclass of `requests.RequestException`, as are
`requests.exceptions.ConnectionError` and `requests.exceptions.Timeout`.
The repository's own `APIError` (raised by `_make_api_request` after
converting an `HTTPError`) derives from `IntegrationError < Exception` and
matches none of the three classes. `PyExc` lists one constructor per
behaviourally distinct class for the `isinstance` checks below. -/

/-- Exception values that can reach `retry_api_call`'s `except` clauses. -/
inductive PyExc where
  /-- `requests.exceptions.HTTPError` carrying a response with this HTTP
  status code (a subclass of `requests.RequestException`). -/
  | httpError (status : Nat)
  /-- `requests.exceptions.ConnectionError` / builtin `ConnectionError`. -/
  | connError
  /-- `requests.exceptions.Timeout` / builtin `TimeoutError`. -/
  | timeoutExc
  /-- any other `requests.RequestException`. -/
  | requestExc
  /-- the repository's `APIError` (status code present for HTTP failures,
  absent for network failures); not a `requests.RequestException`. -/
  | apiError (status : Option Nat)
  /-- any other exception (e.g. `TokenRefreshError`, `ValueError`). -/
  | otherExc
  deriving DecidableEq, Repr

/-- `isinstance(e, (requests.RequestException, ConnectionError, TimeoutError))`:
the classification performed by `except retry_on` with the default tuple of
`retry_api_call`.  `httpError` is an instance of `requests.RequestException`
by subclassing. -/
def defaultRetryOn : PyExc → Bool
  | .httpError _ => true
  | .connError => true
  | .timeoutExc => true
  | .requestExc => true
  | .apiError _ => false
  | .otherExc => false

/-- Result of one invocation of the wrapped function: a returned value or a
raised exception. -/
inductive CallResult (α : Type) where
  | ok (v : α)
  | exn (e : PyExc)
  deriving DecidableEq, Repr

/-- The `for attempt in range(max_retries + 1)` loop body of
`retry_api_call` (`base/services.py` lines 308–328).  `func n` is the result
of the function's `n`-th invocation (0-based); `remaining = maxRetries -
attempt` counts the loop iterations still ahead, so `remaining = 0` is the
source's `attempt == max_retries` branch that logs and re-raises.  The value
returned alongside the result is the total number of invocations of `func`.
`time.sleep(base_delay * backoff_factor ** attempt)` only consumes wall
time and is not modelled. -/
def retryLoop (func : Nat → CallResult α) (retryOn : PyExc → Bool) :
    Nat → Nat → CallResult α × Nat
  | attempt, remaining =>
    match func attempt with
    | .ok v => (.ok v, attempt + 1)
    | .exn e =>
      if retryOn e then
        match remaining with
        | 0 => (.exn e, attempt + 1)
        | r + 1 => retryLoop func retryOn (attempt + 1) r
      else
        (.exn e, attempt + 1)

/-- `BaseCloudService.retry_api_call(func, max_retries, ...)`: returns the
final result together with the number of times `func` was invoked. -/
def retry_api_call (func : Nat → CallResult α) (maxRetries : Nat)
    (retryOn : PyExc → Bool := defaultRetryOn) : CallResult α × Nat :=
  retryLoop func retryOn 0 maxRetries

/-! ## Token cipher (`base/models.py`, `_encrypt_token` / `_decrypt_token`)

The Fernet cipher from the `cryptography` library is external to the
repository; it is modelled as a pair of fallible functions of the key and
the text.  `encryptWith` covers both `Fernet(key)` construction (which
raises on a malformed key) and `f.encrypt`; likewise `decryptWith` covers
construction and `f.decrypt` (which raises `InvalidToken` on data failing
its authentication/format check).  Both `except` arms of `_decrypt_token`
return the input, so the error type needs no further distinction. -/

/-- Model of the Fernet cipher library: encryption and decryption with a
given key, either succeeding with a string or raising. -/
structure FernetLib where
  encryptWith : String → String → Except Unit String
  decryptWith : String → String → Except Unit String

/-- `BaseCloudAuth._encrypt_token`.  `key` is the
`settings.TOKEN_ENCRYPTION_KEY` value (`none` when unset; the source's
`if not key` also treats an empty string as unset).  Any exception from the
cipher is caught and the plaintext returned. -/
def encrypt_token (lib : FernetLib) (key : Option String) (token : String) :
    String :=
  if token = "" then token
  else
    match key with
    | none => token
    | some k =>
      if k = "" then token
      else
        match lib.encryptWith k token with
        | .ok c => c
        | .error _ => token

/-- `BaseCloudAuth._decrypt_token`: both the `InvalidToken` arm (legacy
unencrypted data) and the generic `Exception` arm return the input. -/
def decrypt_token (lib : FernetLib) (key : Option String)
    (encrypted : String) : String :=
  if encrypted = "" then encrypted
  else
    match key with
    | none => encrypted
    | some k =>
      if k = "" then encrypted
      else
        match lib.decryptWith k encrypted with
        | .ok p => p
        | .error _ => encrypted

/-! ## Credential records (`base/models.py`, `BaseCloudAuth`) -/

/-- One `BaseCloudAuth` row.  `accessToken` / `refreshToken` hold the
stored (possibly encrypted) column values `_access_token` /
`_refresh_token`; `expiresAt` is the nullable `expires_at` timestamp in
seconds. -/
structure CloudAuth where
  accessToken : String
  refreshToken : Option String
  tokenType : String
  expiresAt : Option Int
  accountId : String
  email : String
  displayName : String
  scopes : List String
  isActive : Bool
  deriving DecidableEq, Repr

/-- Field values of a freshly created row (Django field defaults:
`token_type="bearer"`, `scopes=[]`, `is_active=True`, blank identity
fields; token columns unset until assigned). -/
def newAuthRecord : CloudAuth :=
  { accessToken := ""
    refreshToken := none
    tokenType := "bearer"
    expiresAt := none
    accountId := ""
    email := ""
    displayName := ""
    scopes := []
    isActive := true }

/-- `BaseCloudAuth.needs_refresh(buffer_minutes=5)`: true iff `expires_at`
is set and `timezone.now() >= expires_at - timedelta(minutes=buffer_minutes)`. -/
def needs_refresh (now : Int) (a : CloudAuth) (bufferMinutes : Int := 5) :
    Bool :=
  match a.expiresAt with
  | none => false
  | some e => decide (now ≥ e - bufferMinutes * 60)

/-- The `decrypted_access_token` property getter. -/
def decrypted_access_token (lib : FernetLib) (key : Option String)
    (a : CloudAuth) : String :=
  decrypt_token lib key a.accessToken

/-- The `decrypted_refresh_token` property getter: returns `None` when the
stored column is null or empty (`if self._refresh_token:`). -/
def decrypted_refresh_token (lib : FernetLib) (key : Option String)
    (a : CloudAuth) : Option String :=
  match a.refreshToken with
  | none => none
  | some r => if r = "" then none else some (decrypt_token lib key r)

/-! ## `save_tokens` (`base/services.py` lines 143–188) -/

/-- The OAuth token response dict passed to `save_tokens`.
`access_token` is accessed with `[]` (required); the other keys with
`.get` (optional).  `scope` may be a space-delimited string or a list. -/
structure TokenData where
  accessToken : String
  refreshToken : Option String := none
  expiresIn : Option Int := none
  tokenType : Option String := none
  scope : Option (Sum String (List String)) := none

/-- The optional `account_info` dict; `_extract_account_info` reads keys
`id`, `email`, `name` with `.get(key, '')`. -/
structure AccountInfo where
  id : Option String := none
  email : Option String := none
  name : Option String := none

/-- Python `str.split()`: split on whitespace, discarding empty pieces. -/
def pySplit (s : String) : List String :=
  (s.split Char.isWhitespace).filter (fun piece => piece ≠ "")

/-- `BaseCloudService.save_tokens(token_data, account_info)` for a user
whose current row (active or not — `update_or_create` is keyed on the user
alone) is `existing`.  `defaultExpiry` is the provider's
`DEFAULT_TOKEN_EXPIRY` (3600 in the base class); `now` is `timezone.now()`.
Returns the row as saved. -/
def save_tokens (lib : FernetLib) (key : Option String) (defaultExpiry : Int)
    (now : Int) (existing : Option CloudAuth) (td : TokenData)
    (accountInfo : Option AccountInfo) : CloudAuth :=
  let expiresIn := td.expiresIn.getD defaultExpiry
  let expiresAt := now + expiresIn
  let base :=
    match existing with
    | some a => a
    | none => newAuthRecord
  let auth :=
    { base with
        tokenType := td.tokenType.getD "bearer"
        expiresAt := some expiresAt
        isActive := true }
  let auth :=
    match accountInfo with
    | none => auth
    | some info =>
      { auth with
          accountId := info.id.getD ""
          email := info.email.getD ""
          displayName := info.name.getD "" }
  let auth := { auth with accessToken := encrypt_token lib key td.accessToken }
  let auth :=
    match td.refreshToken with
    | none => auth
    | some r =>
      if r = "" then auth
      else { auth with refreshToken := some (encrypt_token lib key r) }
  match td.scope with
  | none => auth
  | some (Sum.inl s) => { auth with scopes := pySplit s }
  | some (Sum.inr l) => { auth with scopes := l }

/-- `BaseCloudService.disconnect`: returns `True` immediately if no row is
loaded; otherwise revokes best-effort (no local state change) and saves the
row with `is_active=False`.  Result: `(return value, row after)`. -/
def service_disconnect (auth : Option CloudAuth) : Bool × Option CloudAuth :=
  match auth with
  | none => (true, none)
  | some a => (true, some { a with isActive := false })

/-! ## Views (`google/views.py`, `box/views.py`, `dropbox/views.py`,
`onedrive/views.py`)

Each provider's `_load_auth` runs
`Model.objects.get(user=..., is_active=True)`, so only an active row is
loaded; `is_connected` then checks `auth is not None and auth.is_active`. -/

/-- The provider endpoint instances. -/
inductive Provider where
  | google
  | box
  | dropbox
  | onedrive
  deriving DecidableEq, Repr

/-- A raised `ninja.errors.HttpError(status, detail)`. -/
structure HttpErrorE where
  status : Nat
  detail : String
  deriving DecidableEq, Repr

/-- `_load_auth`: the user's row if it exists and is active, else `None`. -/
def load_auth (record : Option CloudAuth) : Option CloudAuth :=
  match record with
  | none => none
  | some a => if a.isActive then some a else none

/-- `BaseCloudService.is_connected`. -/
def is_connected (auth : Option CloudAuth) : Bool :=
  match auth with
  | none => false
  | some a => a.isActive

/-- The `HttpError` each provider's disconnect view raises when
`not service.is_connected()` (`google/views.py:77`, `box/views.py:68`,
`dropbox/views.py:63`, `onedrive/views.py:66`). -/
def disconnectNotConnectedError : Provider → HttpErrorE
  | .google => ⟨404, "Google Drive not connected"⟩
  | .box => ⟨400, "Box is not connected"⟩
  | .dropbox => ⟨400, "Dropbox is not connected"⟩
  | .onedrive => ⟨400, "OneDrive is not connected"⟩

/-- The `HttpError` each provider's contents view raises when
`not service.is_connected()` (`google/views.py:94`, `box/views.py:87`,
`dropbox/views.py:78`, `onedrive/views.py:82`). -/
def contentsNotConnectedError : Provider → HttpErrorE
  | .google => ⟨404, "Google Drive not connected. Please connect first."⟩
  | .box => ⟨400, "Box is not connected. Please authorize first."⟩
  | .dropbox => ⟨400, "Dropbox is not connected. Please authorize first."⟩
  | .onedrive => ⟨400, "OneDrive is not connected. Please authorize first."⟩

/-- The disconnect view for provider `p`, applied to the principal's
credential row (`record`): raises the provider's not-connected `HttpError`
when no active row exists, otherwise runs `service.disconnect()` and
responds.  The response body is abbreviated to the disconnect outcome. -/
def disconnect_view (p : Provider) (record : Option CloudAuth) :
    Except HttpErrorE (Bool × Option CloudAuth) :=
  let auth := load_auth record
  if is_connected auth then .ok (service_disconnect auth)
  else .error (disconnectNotConnectedError p)

/-- The not-connected guard of the contents view for provider `p`: the
`HttpError` it raises when no active row exists, `none` when the guard
passes (the success path then performs provider I/O, outside this model). -/
def contents_view_guard (p : Provider) (record : Option CloudAuth) :
    Option HttpErrorE :=
  if is_connected (load_auth record) then none
  else some (contentsNotConnectedError p)

/-! ## Batch refresh sweep (`google/tasks.py`,
`refresh_expiring_google_tokens`) -/

/-- Outcome of one per-record refresh attempt inside the sweep's loop body:
`service.refresh_access_token()` returned `True` / returned `False` /
something raised (caught by the per-record `except`). -/
inductive ROutcome where
  | ok
  | failed
  | raised
  deriving DecidableEq, Repr

/-- The queryset filter of the sweep:
`expires_at <= now + 6h`, `expires_at > now`, `_refresh_token` not null,
`is_active=True`, and `.exclude(_refresh_token="")`.  A null `expires_at`
fails both comparisons. -/
def sweepSelects (now : Int) (a : CloudAuth) : Bool :=
  (match a.expiresAt with
   | none => false
   | some e => decide (e ≤ now + 6 * 3600) && decide (e > now))
  && (match a.refreshToken with
      | none => false
      | some r => r ≠ "")
  && a.isActive

/-- The records the sweep iterates over, in order. -/
def sweepSelected (now : Int) (records : List CloudAuth) : List CloudAuth :=
  records.filter (sweepSelects now)

/-- The sweep's `for google_auth in expiring_tokens` loop: each record's
attempt is made independently, `success_count` incremented on `True`; a
raise is caught and logged, and the loop continues with the next record. -/
def sweepLoop (attempt : CloudAuth → ROutcome) : List CloudAuth → Nat
  | [] => 0
  | a :: rest =>
    (if attempt a = ROutcome.ok then 1 else 0) + sweepLoop attempt rest

/-- The dict returned by the sweep:
`{"success": True, "tokens_refreshed": success_count}`. -/
structure SweepSummary where
  success : Bool
  tokensRefreshed : Nat
  deriving DecidableEq, Repr

/-- `refresh_expiring_google_tokens`: select the expiring records, attempt
each independently (`attempt` gives each record's outcome), return the
summary dict. -/
def refresh_expiring_google_tokens (now : Int) (records : List CloudAuth)
    (attempt : CloudAuth → ROutcome) : SweepSummary :=
  { success := true
    tokensRefreshed := sweepLoop attempt (sweepSelected now records) }

/-! ## Concrete instances used in scenarios and witnesses -/

/-- Cipher model whose decryption always fails its authentication check,
as Fernet does on legacy plaintext values. -/
def failDecLib : FernetLib :=
  { encryptWith := fun _ t => .ok t
    decryptWith := fun _ _ => .error () }

/-- Cipher model whose encryption always raises, as Fernet construction
does on a malformed key. -/
def failEncLib : FernetLib :=
  { encryptWith := fun _ _ => .error ()
    decryptWith := fun _ c => .ok c }

/-- Cipher model prepending a tag character: a concrete instance with
`decryptWith` a left inverse of `encryptWith` and non-empty ciphertexts. -/
def tagLib : FernetLib :=
  { encryptWith := fun _ t => .ok ⟨'F' :: t.data⟩
    decryptWith := fun _ c => .ok ⟨c.data.tail⟩ }

/-- The HTTP status each provider's disconnect/contents views use when no
active credential exists. -/
def notConnectedStatus : Provider → Nat
  | .google => 404
  | .box => 400
  | .dropbox => 400
  | .onedrive => 400

/-- An active record with a refresh token, expiring `2h` after `now`. -/
def recExpiring2h (now : Int) : CloudAuth :=
  { newAuthRecord with
      expiresAt := some (now + 7200)
      refreshToken := some "r" }

/-- An active record with a refresh token, expiring `10h` after `now`. -/
def recExpiring10h (now : Int) : CloudAuth :=
  { newAuthRecord with
      expiresAt := some (now + 36000)
      refreshToken := some "r" }

/-! ## Helper lemmas -/

/-- A function that always raises a retryable exception exhausts the loop:
starting at `attempt` with `remaining` iterations ahead, the loop re-raises
after `remaining + 1` further invocations. -/
theorem retryLoop_const_exn (e : PyExc) (retryOn : PyExc → Bool)
    (h : retryOn e = true) :
    ∀ (remaining attempt : Nat),
      retryLoop (fun _ => CallResult.exn (α := Nat) e) retryOn attempt remaining
        = (CallResult.exn e, attempt + remaining + 1) := by
  intro remaining
  induction remaining with
  | zero => intro attempt; simp [retryLoop, h]
  | succ r ih =>
    intro attempt
    rw [retryLoop]
    simp only [h, if_true]
    rw [ih (attempt + 1)]
    congr 1
    omega

/-- Identity behaviour of the cipher wrappers when no key is configured. -/
theorem roundtrip_no_key (lib : FernetLib) (t : String) :
    decrypt_token lib none (encrypt_token lib none t) = t := by
  by_cases h : t = "" <;> simp [encrypt_token, decrypt_token, h]

/-- Under a decrypt-after-encrypt round trip, encrypting a non-empty token
cannot yield the empty string (decrypting `""` returns `""`). -/
theorem encrypt_token_ne_empty (lib : FernetLib) (key : Option String)
    (hrt : ∀ t, decrypt_token lib key (encrypt_token lib key t) = t)
    (t : String) (ht : t ≠ "") : encrypt_token lib key t ≠ "" := by
  intro h
  have h2 := hrt t
  rw [h] at h2
  simp [decrypt_token] at h2
  exact ht h2.symm

/-! ## Claim theorems -/

/-- C7: `retry_api_call` with `max_retries = 3` invokes a function that
always raises a transient (retryable) error exactly 4 times — one initial
attempt plus 3 retries — and then re-raises that error; a function that
returns a value on its first call is invoked exactly once and its value
returned. -/
theorem retry_counts :
    (∀ (e : PyExc), defaultRetryOn e = true →
      retry_api_call (fun _ => CallResult.exn (α := Nat) e) 3 defaultRetryOn
        = (CallResult.exn e, 4))
    ∧ ∀ (f : Nat → CallResult Nat) (v : Nat), f 0 = CallResult.ok v →
        retry_api_call f 3 defaultRetryOn = (CallResult.ok v, 1) := by
  constructor
  · intro e he
    rw [retry_api_call, retryLoop_const_exn e defaultRetryOn he]
  · intro f v hf
    rw [retry_api_call, retryLoop, hf]

/-- Witness for C7 at a concrete transient error and a concrete
first-call success. -/
theorem retry_counts_witness :
    retry_api_call (fun _ => CallResult.exn (α := Nat) PyExc.connError) 3
        defaultRetryOn
      = (CallResult.exn PyExc.connError, 4)
    ∧ retry_api_call (fun _ => CallResult.ok (0 : Nat)) 3 defaultRetryOn
      = (CallResult.ok 0, 1) :=
  ⟨retry_counts.1 PyExc.connError rfl,
   retry_counts.2 (fun _ => CallResult.ok 0) 0 rfl⟩

/-- C1 counterexample: under the default `retry_on` classification, an
`HTTPError` carrying an HTTP 404 response — being a subclass of
`requests.RequestException` — IS retried: a function that always raises it
is invoked 4 times with `max_retries = 3`, not once as the claim's
"propagates on its first occurrence" requires. -/
theorem retry_http_error_is_retried :
    retry_api_call (fun _ => CallResult.exn (α := Nat) (PyExc.httpError 404))
        3 defaultRetryOn
      = (CallResult.exn (PyExc.httpError 404), 4)
    ∧ (4 : Nat) ≠ 1 := by
  constructor
  · rw [retry_api_call, retryLoop_const_exn (PyExc.httpError 404) defaultRetryOn rfl]
  · decide

/-- C1 amended: with the default `retry_on` classification, exceptions that
are instances of `requests.RequestException` (which includes the
HTTP-status error `HTTPError`), `ConnectionError` or `TimeoutError` are
retried until the retry budget is exhausted; any exception outside those
classes — in particular the repository's `APIError`, into which
`_make_api_request` converts HTTP 4xx/5xx responses — propagates to the
caller on its first occurrence without any further invocation. -/
theorem retry_default_classification :
    (∀ (maxRetries : Nat) (f : Nat → CallResult Nat) (e : PyExc),
      defaultRetryOn e = false → f 0 = CallResult.exn e →
      retry_api_call f maxRetries defaultRetryOn = (CallResult.exn e, 1))
    ∧ (∀ s, defaultRetryOn (PyExc.httpError s) = true)
    ∧ (∀ s, defaultRetryOn (PyExc.apiError s) = false)
    ∧ defaultRetryOn PyExc.connError = true
    ∧ defaultRetryOn PyExc.timeoutExc = true
    ∧ defaultRetryOn PyExc.requestExc = true
    ∧ defaultRetryOn PyExc.otherExc = false
    ∧ ∀ (maxRetries : Nat) (e : PyExc), defaultRetryOn e = true →
        retry_api_call (fun _ => CallResult.exn (α := Nat) e) maxRetries
            defaultRetryOn
          = (CallResult.exn e, maxRetries + 1) := by
  refine ⟨?_, fun s => rfl, fun s => rfl, rfl, rfl, rfl, rfl, ?_⟩
  · intro maxRetries f e he hf
    rw [retry_api_call, retryLoop, hf]
    simp [he]
  · intro maxRetries e he
    rw [retry_api_call, retryLoop_const_exn e defaultRetryOn he,
      Nat.zero_add]

/-- Witness for the amended C1: a concrete `APIError` propagates after one
invocation; a concrete transient error is retried to exhaustion. -/
theorem retry_default_classification_witness :
    retry_api_call (fun _ => CallResult.exn (α := Nat) (PyExc.apiError none))
        3 defaultRetryOn
      = (CallResult.exn (PyExc.apiError none), 1)
    ∧ retry_api_call (fun _ => CallResult.exn (α := Nat) PyExc.timeoutExc) 3
        defaultRetryOn
      = (CallResult.exn PyExc.timeoutExc, 4) :=
  ⟨retry_default_classification.1 3
      (fun _ => CallResult.exn (PyExc.apiError none)) (PyExc.apiError none)
      rfl rfl,
   retry_default_classification.2.2.2.2.2.2.2 3 PyExc.timeoutExc rfl⟩

/-- C6: `needs_refresh` with the default 5-minute buffer is true exactly
when `expires_at` is set and `now >= expires_at - 5min`; in particular it
is true for a record expiring in 4 minutes, false for one expiring in 10
minutes, and false for a record with no expiry. -/
theorem needs_refresh_spec :
    ∀ (a : CloudAuth) (now : Int),
      (needs_refresh now a 5 = true ↔
        ∃ e, a.expiresAt = some e ∧ e - 300 ≤ now)
      ∧ needs_refresh now { a with expiresAt := some (now + 240) } 5 = true
      ∧ needs_refresh now { a with expiresAt := some (now + 600) } 5 = false
      ∧ needs_refresh now { a with expiresAt := none } 5 = false := by
  intro a now
  refine ⟨?_, ?_, ?_, ?_⟩
  · rcases h : a.expiresAt with _ | e <;> simp [needs_refresh, h]
  · simp [needs_refresh]
  · simp [needs_refresh]
  · simp [needs_refresh]

/-- Encryption in `tagLib` succeeds with a non-empty ciphertext. -/
theorem tagLib_enc (t : String) (_ : t ≠ "") :
    ∃ c, tagLib.encryptWith "k" t = Except.ok c ∧ c ≠ "" := by
  refine ⟨⟨'F' :: t.data⟩, rfl, ?_⟩
  intro h
  have h2 := congrArg String.data h
  simp at h2

/-- Decryption in `tagLib` inverts encryption. -/
theorem tagLib_dec (t c : String)
    (h : tagLib.encryptWith "k" t = Except.ok c) :
    tagLib.decryptWith "k" c = Except.ok t := by
  simp only [tagLib, Except.ok.injEq] at h
  subst h
  rfl

/-- C8: with no key configured both cipher wrappers are the identity; the
empty token short-circuits for every key configuration; and decryption of
data the cipher rejects (for example legacy plaintext) returns the input
unchanged — and, the wrappers being total functions, never raises. -/
theorem cipher_degrades_safely :
    ∀ (lib : FernetLib) (t : String),
      encrypt_token lib none t = t
      ∧ decrypt_token lib none t = t
      ∧ encrypt_token lib (some "") t = t
      ∧ decrypt_token lib (some "") t = t
      ∧ (∀ (key : Option String),
          encrypt_token lib key "" = "" ∧ decrypt_token lib key "" = "")
      ∧ ∀ (k c : String) (err : Unit), c ≠ "" → k ≠ "" →
          lib.decryptWith k c = Except.error err →
          decrypt_token lib (some k) c = c := by
  intro lib t
  refine ⟨?_, ?_, ?_, ?_, ?_, ?_⟩
  · by_cases h : t = "" <;> simp [encrypt_token, h]
  · by_cases h : t = "" <;> simp [decrypt_token, h]
  · by_cases h : t = "" <;> simp [encrypt_token, h]
  · by_cases h : t = "" <;> simp [decrypt_token, h]
  · intro key; exact ⟨rfl, rfl⟩
  · intro k c err hc hk hfail
    simp [decrypt_token, hc, hk, hfail]

/-- Witness for C8 at a concrete rejected ciphertext. -/
theorem cipher_degrades_safely_witness :
    decrypt_token failDecLib (some "k") "legacy-token" = "legacy-token" :=
  (cipher_degrades_safely failDecLib "x").2.2.2.2.2 "k" "legacy-token" ()
    (by decide) (by decide) rfl

/-- C9: with a valid key configured — modelled as one on which the cipher
encrypts every non-empty token successfully to a non-empty ciphertext and
decryption inverts encryption — `decrypt_token` is a left inverse of
`encrypt_token` on non-empty tokens. -/
theorem cipher_roundtrip (lib : FernetLib) (k : String) (hk : k ≠ "")
    (henc : ∀ t, t ≠ "" → ∃ c, lib.encryptWith k t = Except.ok c ∧ c ≠ "")
    (hdec : ∀ t c, lib.encryptWith k t = Except.ok c →
      lib.decryptWith k c = Except.ok t) :
    ∀ t, t ≠ "" →
      decrypt_token lib (some k) (encrypt_token lib (some k) t) = t := by
  intro t ht
  obtain ⟨c, hc, hcne⟩ := henc t ht
  have henct : encrypt_token lib (some k) t = c := by
    simp [encrypt_token, ht, hk, hc]
  rw [henct]
  have hdc := hdec t c hc
  simp [decrypt_token, hcne, hk, hdc]

/-- Witness for C9: the round trip evaluated on the concrete cipher model
`tagLib` at token `"A"`. -/
theorem cipher_roundtrip_witness :
    decrypt_token tagLib (some "k") (encrypt_token tagLib (some "k") "A")
      = "A" :=
  cipher_roundtrip tagLib "k" (by decide) tagLib_enc tagLib_dec "A"
    (by decide)

/-- C10: `_encrypt_token` is a total function (never raises): its result is
either the plaintext itself or a successful cipher output; whenever cipher
construction or encryption fails it returns the plaintext unchanged, and
`save_tokens` then persists that unencrypted value in the access-token
column. -/
theorem encrypt_never_raises :
    ∀ (lib : FernetLib) (key : Option String) (t : String),
      (encrypt_token lib key t = t
        ∨ ∃ k c, key = some k ∧ lib.encryptWith k t = Except.ok c
            ∧ encrypt_token lib key t = c)
      ∧ (∀ (k : String) (err : Unit), lib.encryptWith k t = Except.error err →
          encrypt_token lib (some k) t = t)
      ∧ ∀ (k : String) (err : Unit) (defaultExpiry now : Int)
          (existing : Option CloudAuth),
          lib.encryptWith k t = Except.error err →
          (save_tokens lib (some k) defaultExpiry now existing
              { accessToken := t } none).accessToken = t := by
  intro lib key t
  have hfail : ∀ (k : String) (err : Unit),
      lib.encryptWith k t = Except.error err →
      encrypt_token lib (some k) t = t := by
    intro k err herr
    by_cases ht : t = ""
    · simp [encrypt_token, ht]
    · by_cases hk : k = "" <;> simp [encrypt_token, ht, hk, herr]
  refine ⟨?_, hfail, ?_⟩
  · by_cases ht : t = ""
    · left; simp [encrypt_token, ht]
    · rcases key with _ | k
      · left; simp [encrypt_token, ht]
      · by_cases hk : k = ""
        · left; simp [encrypt_token, ht, hk]
        · rcases herr : lib.encryptWith k t with err | c
          · left; exact hfail k err herr
          · right
            exact ⟨k, c, rfl, herr, by simp [encrypt_token, ht, hk, herr]⟩
  · intro k err defaultExpiry now existing herr
    have hsave : (save_tokens lib (some k) defaultExpiry now existing
        { accessToken := t } none).accessToken
        = encrypt_token lib (some k) t := by
      cases existing <;> rfl
    rw [hsave]
    exact hfail k err herr

/-- Witness for C10: with a cipher whose encryption always fails (as with a
malformed key), a concrete token is stored in plaintext. -/
theorem encrypt_never_raises_witness :
    encrypt_token failEncLib (some "bad-key") "tok" = "tok"
    ∧ (save_tokens failEncLib (some "bad-key") 3600 0 none
        { accessToken := "tok" } none).accessToken = "tok" :=
  ⟨(encrypt_never_raises failEncLib (some "bad-key") "tok").2.1 "bad-key" ()
      rfl,
   (encrypt_never_raises failEncLib (some "bad-key") "tok").2.2 "bad-key" ()
      3600 0 none rfl⟩

/-- Expiry and activity after any `save_tokens` call: `expires_at` is
`now + expires_in` with the provider default filling in an absent
`expires_in`, and the record is saved active. -/
theorem save_tokens_fields (lib : FernetLib) (key : Option String)
    (defaultExpiry now : Int) (existing : Option CloudAuth) (td : TokenData)
    (accountInfo : Option AccountInfo) :
    (save_tokens lib key defaultExpiry now existing td accountInfo).expiresAt
        = some (now + td.expiresIn.getD defaultExpiry)
    ∧ (save_tokens lib key defaultExpiry now existing td accountInfo).isActive
        = true := by
  rcases td with ⟨a, rt, ei, tt, sc⟩
  cases existing <;> cases accountInfo <;> rcases rt with _ | r <;>
    rcases sc with _ | s | l <;>
    simp [save_tokens, apply_ite]

/-- C4: saving a token response `{access_token: "A", refresh_token: "R",
expires_in: 3600}` at time `T0` yields an active record expiring at
`T0 + 3600` whose decrypted access and refresh tokens are `"A"` and `"R"`
(for any cipher/key under which decryption inverts encryption, e.g. a
configured Fernet key or the plaintext passthrough); in general
`expires_at = now + expires_in`, with the provider default when
`expires_in` is absent. -/
theorem save_tokens_scenario (lib : FernetLib) (key : Option String)
    (hrt : ∀ t, decrypt_token lib key (encrypt_token lib key t) = t) :
    (∀ (T0 : Int) (existing : Option CloudAuth),
      (save_tokens lib key 3600 T0 existing
          { accessToken := "A", refreshToken := some "R",
            expiresIn := some 3600 } none).isActive = true
      ∧ (save_tokens lib key 3600 T0 existing
          { accessToken := "A", refreshToken := some "R",
            expiresIn := some 3600 } none).expiresAt = some (T0 + 3600)
      ∧ decrypted_access_token lib key
          (save_tokens lib key 3600 T0 existing
            { accessToken := "A", refreshToken := some "R",
              expiresIn := some 3600 } none) = "A"
      ∧ decrypted_refresh_token lib key
          (save_tokens lib key 3600 T0 existing
            { accessToken := "A", refreshToken := some "R",
              expiresIn := some 3600 } none) = some "R")
    ∧ ∀ (defaultExpiry now : Int) (existing : Option CloudAuth)
        (td : TokenData) (accountInfo : Option AccountInfo),
        (save_tokens lib key defaultExpiry now existing td
            accountInfo).expiresAt
          = some (now + td.expiresIn.getD defaultExpiry) := by
  constructor
  · intro T0 existing
    have hA := hrt "A"
    have hR := hrt "R"
    have hRne := encrypt_token_ne_empty lib key hrt "R" (by decide)
    refine ⟨(save_tokens_fields lib key 3600 T0 existing _ none).2,
      (save_tokens_fields lib key 3600 T0 existing _ none).1, ?_, ?_⟩ <;>
      cases existing <;>
      simp [save_tokens, decrypted_access_token, decrypted_refresh_token,
        hA, hR, hRne]
  · intro defaultExpiry now existing td accountInfo
    exact (save_tokens_fields lib key defaultExpiry now existing td
      accountInfo).1

/-- Witness for C4 with the identity passthrough (no key configured) at
`T0 = 0` and no pre-existing record. -/
theorem save_tokens_scenario_witness :
    decrypted_access_token tagLib none
        (save_tokens tagLib none 3600 0 none
          { accessToken := "A", refreshToken := some "R",
            expiresIn := some 3600 } none) = "A"
    ∧ decrypted_refresh_token tagLib none
        (save_tokens tagLib none 3600 0 none
          { accessToken := "A", refreshToken := some "R",
            expiresIn := some 3600 } none) = some "R"
    ∧ (save_tokens tagLib none 3600 0 none
        { accessToken := "A", refreshToken := some "R",
          expiresIn := some 3600 } none).expiresAt = some 3600 :=
  ⟨((save_tokens_scenario tagLib none (roundtrip_no_key tagLib)).1 0
      none).2.2.1,
   ((save_tokens_scenario tagLib none (roundtrip_no_key tagLib)).1 0
      none).2.2.2,
   ((save_tokens_scenario tagLib none (roundtrip_no_key tagLib)).1 0
      none).2.1⟩

/-- C5: a `save_tokens` call whose token response lacks a `refresh_token`
(or carries an empty one) leaves the stored refresh-token column of an
existing record exactly as it was. -/
theorem save_tokens_preserves_refresh_token (lib : FernetLib)
    (key : Option String) :
    ∀ (defaultExpiry now : Int) (existing : CloudAuth) (td : TokenData)
      (accountInfo : Option AccountInfo),
      (td.refreshToken = none ∨ td.refreshToken = some "") →
      (save_tokens lib key defaultExpiry now (some existing) td
          accountInfo).refreshToken
        = existing.refreshToken := by
  intro defaultExpiry now existing td accountInfo h
  rcases td with ⟨a, rt, ei, tt, sc⟩
  simp only [] at h
  rcases h with h | h <;> subst h <;> cases accountInfo <;>
    rcases sc with _ | s | l <;> simp [save_tokens]

/-- Witness for C5: a record holding refresh token `"R0"` keeps it across a
refresh response that carries no `refresh_token`. -/
theorem save_tokens_preserves_refresh_token_witness :
    (save_tokens tagLib none 3600 0
        (some { newAuthRecord with refreshToken := some "R0" })
        { accessToken := "A2" } none).refreshToken = some "R0" :=
  save_tokens_preserves_refresh_token tagLib none 3600 0
    { newAuthRecord with refreshToken := some "R0" }
    { accessToken := "A2" } none (Or.inl rfl)

/-- C2 counterexample: for a principal with no credential record, the
Google Drive disconnect and contents endpoints fail with HTTP 404, not the
400 the claim asserts for every provider. -/
theorem google_not_connected_is_404 :
    disconnect_view Provider.google none
        = Except.error ⟨404, "Google Drive not connected"⟩
    ∧ contents_view_guard Provider.google none
        = some ⟨404, "Google Drive not connected. Please connect first."⟩
    ∧ (404 : Nat) ≠ 400 :=
  ⟨rfl, rfl, by decide⟩

/-- C2 amended: for every provider endpoint instance and every principal
with no active credential record, the disconnect and contents endpoints
each fail — with HTTP 400 for Box, Dropbox and OneDrive, and HTTP 404 for
Google Drive. -/
theorem views_fail_when_not_connected :
    ∀ (p : Provider) (record : Option CloudAuth),
      load_auth record = none →
      disconnect_view p record
          = Except.error (disconnectNotConnectedError p)
      ∧ contents_view_guard p record = some (contentsNotConnectedError p)
      ∧ (disconnectNotConnectedError p).status = notConnectedStatus p
      ∧ (contentsNotConnectedError p).status = notConnectedStatus p := by
  intro p record h
  refine ⟨?_, ?_, ?_, ?_⟩
  · simp [disconnect_view, h, is_connected]
  · simp [contents_view_guard, h, is_connected]
  · cases p <;> rfl
  · cases p <;> rfl

/-- Witness for the amended C2 at the Box endpoints with no record. -/
theorem views_fail_when_not_connected_witness :
    disconnect_view Provider.box none
        = Except.error (disconnectNotConnectedError Provider.box)
    ∧ contents_view_guard Provider.box none
        = some (contentsNotConnectedError Provider.box)
    ∧ (disconnectNotConnectedError Provider.box).status
        = notConnectedStatus Provider.box
    ∧ (contentsNotConnectedError Provider.box).status
        = notConnectedStatus Provider.box :=
  views_fail_when_not_connected Provider.box none rfl

/-- C3 counterexample: the sweep's returned summary is
`{success, tokens_refreshed}` and carries no attempted count — an empty
sweep and a sweep that attempted one record (whose refresh failed) return
the identical summary, so no field of the summary is the `attempted`
count the claim requires. -/
theorem sweep_summary_lacks_attempted_count :
    refresh_expiring_google_tokens 0 [] (fun _ => ROutcome.failed)
        = { success := true, tokensRefreshed := 0 }
    ∧ refresh_expiring_google_tokens 0 [recExpiring2h 0]
        (fun _ => ROutcome.failed)
        = { success := true, tokensRefreshed := 0 }
    ∧ (sweepSelected 0 [recExpiring2h 0]).length = 1
    ∧ (sweepSelected 0 ([] : List CloudAuth)).length = 0 := by
  refine ⟨rfl, ?_, ?_, rfl⟩ <;>
    simp [refresh_expiring_google_tokens, sweepSelected, sweepSelects,
      sweepLoop, recExpiring2h, newAuthRecord, List.filter]

/-- C3 amended: with the fixed 6-hour window, the sweep attempts a refresh
exactly for the records that are active, hold a non-empty refresh token and
expire in `(now, now + 6h]`; each record is attempted independently, so a
failure contributes nothing to the count and does not abort the remaining
records; the returned summary is `{success: true, tokens_refreshed: n}`
where `n` counts only the successful refreshes — it carries no attempted
count.  In the 2h/10h scenario only the 2h record is selected. -/
theorem sweep_spec :
    ∀ (now : Int) (records : List CloudAuth) (a : CloudAuth)
      (attempt : CloudAuth → ROutcome),
      (a ∈ sweepSelected now records ↔
        a ∈ records ∧ a.isActive = true
          ∧ (∃ r, a.refreshToken = some r ∧ r ≠ "")
          ∧ ∃ e, a.expiresAt = some e ∧ now < e ∧ e ≤ now + 21600)
      ∧ (∀ (pre post : List CloudAuth),
          sweepLoop attempt (pre ++ post)
            = sweepLoop attempt pre + sweepLoop attempt post)
      ∧ refresh_expiring_google_tokens now records attempt
          = { success := true,
              tokensRefreshed :=
                sweepLoop attempt (sweepSelected now records) }
      ∧ sweepSelected now [recExpiring2h now, recExpiring10h now]
          = [recExpiring2h now] := by
  intro now records a attempt
  refine ⟨?_, ?_, rfl, ?_⟩
  · rw [sweepSelected, List.mem_filter]
    constructor
    · rintro ⟨hmem, hsel⟩
      refine ⟨hmem, ?_⟩
      rcases hea : a.expiresAt with _ | e <;>
        rcases hra : a.refreshToken with _ | r <;>
        simp [sweepSelects, hea, hra] at hsel
      obtain ⟨⟨⟨h1, h2⟩, h3⟩, h4⟩ := hsel
      exact ⟨h4, ⟨r, rfl, h3⟩, ⟨e, rfl, h2, h1⟩⟩
    · rintro ⟨hmem, hact, ⟨r, hra, hrne⟩, ⟨e, hea, he1, he2⟩⟩
      refine ⟨hmem, ?_⟩
      simp [sweepSelects, hea, hra, hact, hrne]
      omega
  · intro pre post
    induction pre with
    | nil => simp [sweepLoop]
    | cons b rest ih => simp [sweepLoop, ih]; omega
  · have h1 : sweepSelects now (recExpiring2h now) = true := by
      simp [sweepSelects, recExpiring2h, newAuthRecord]
    have h2 : sweepSelects now (recExpiring10h now) = false := by
      simp [sweepSelects, recExpiring10h, newAuthRecord]
    simp [sweepSelected, List.filter, h1, h2]

end NaiIntegrations
